import Mathlib

/-!
Shallow embedding of the raster ensemble flood-mask pipeline of
`environmentaltools` (`src/environmentaltools/spatiotemporal/raster.py` and
`src/environmentaltools/spatiotemporal/utils.py`).

Conventions used throughout this development:

* Python exceptions are modelled with `Except PyErr`; a total Python code path
  is modelled by a total Lean function.
* The file system is an oracle (`FS`); every file-system touch performed by
  `check_inputs` is recorded in program order in an `IOEvent` trace, so that
  "fails before any I/O" is the statement that the returned trace is `[]`.
* `pandas.read_csv(path, sep=",", header=None)` yields a frame whose index is
  the integer `RangeIndex 0, 1, ..., rows-1`; the oracle therefore reports the
  row count of a `levels.csv` file and the embedded date index of a simulation
  is `List.range rows` (`rangeDates`).  In `check_inputs` the comparison
  `np.all(info["dates"] != data.index.tolist())` compares two plain Python
  lists with `!=`, which yields a single `bool` that is `True` exactly when the
  lists differ somewhere (in an entry or in length); `np.all` of a scalar bool
  is that bool, so the code raises exactly when the two index lists are not
  equal.
* Elevations and levels are modelled with `ℚ` (the source only compares them
  with `<` / `>`), angles with `ℝ` (the source uses `np.arctan2`, modelled by
  `Complex.arg`).
* `environmentaltools.common.read.ascii_tiff` is not part of the sources under
  `src/`; following the spec ("raster files ... readable as a 2-D elevation
  grid with explicit x, y, z arrays") it is modelled as the oracle field
  `FS.readRaster`, returning the grid or failing like a missing file.
-/

/-- Python exception values; only the kinds the embedded code can raise. -/
inductive PyErr where
  | valueError (msg : String)
  | fileNotFoundError (msg : String)
  | indexError (msg : String)
  | keyError (key : String)
  | nameError (nm : String)
  deriving DecidableEq

/-- File-system actions performed by the validator, recorded in program order. -/
inductive IOEvent where
  | pathExistsCheck (p : String)
  | globDir (p : String)
  | mkdir (p : String)
  | readCsv (p : String)
  | readRaster (p : String)
  deriving DecidableEq

/-- A 2-D elevation sample set: the `x`, `y`, `z` arrays of a raster
(`da_dem` in the source), as lists of rows. -/
structure Dem where
  x : List (List ℚ)
  y : List (List ℚ)
  z : List (List ℚ)
  deriving DecidableEq

/-- The file-system oracle.  `readCsvRows` returns the number of rows of a
headerless `levels.csv` (its pandas index is then `RangeIndex 0..rows-1`);
`none` models a missing file.  `readRaster` models `ascii_tiff` (modelled from
the spec: the reader itself is outside `src/`). -/
structure FS where
  pathExists : String → Bool
  glob : String → List String
  readCsvRows : String → Option ℕ
  readRaster : String → Option Dem

/-- A season value: `"annual"` or a list of months (raster.py lines 121-126). -/
inductive SeasonVal where
  | annual
  | months (ms : List ℕ)
  deriving DecidableEq

/-- The `seasons` dictionary, as an association list. -/
abbrev Seasons := List (String × SeasonVal)

/-- Default seasons installed when `"seasons"` is absent (raster.py 121-126). -/
def defaultSeasons : Seasons :=
  [("AN", SeasonVal.annual),
   ("TA", SeasonVal.months [4, 5, 6, 7, 8, 9]),
   ("TB", SeasonVal.months [1, 2, 3, 10, 11, 12])]

/-- The raw `info["index"]` field: the code accepts a scalar (normalized to a
one-element list, raster.py 80-81) or a list. -/
inductive IndexField where
  | scalar (s : String)
  | list (l : List String)
  deriving DecidableEq

/-- The `info["directories"]` sub-dictionary (paths as strings). -/
structure Directories where
  input_dtm : String
  output_path : String
  temp_folder : String
  deriving DecidableEq

/-- The run configuration dictionary, with exactly the fields `check_inputs`
reads.  Note that the source reads two distinct keys for the simulation count:
`info["no_sims"]` (an int, used in `range(1, info["no_sims"])`, line 102) and
`info["project"]["no_sims"]` (iterated directly, line 144), modelled by the two
fields `no_sims` and `project_no_sims`. -/
structure Config where
  index : Option IndexField
  input_dtm : String
  no_sims : ℕ
  directories : Directories
  seasons : Option Seasons
  horizon_times : Option (List ℤ)
  return_periods : Option (List ℚ)
  project_no_sims : List ℕ
  grid_size : ℚ
  deriving DecidableEq

/-- The fields `check_inputs` adds to (or normalizes in) the configuration. -/
structure Info where
  index : List String
  dtm_filenames : List (List String)
  seasons : Seasons
  auxiliary_folders : List (String × String)
  dates : Option (List ℤ)
  deriving DecidableEq

/-- Python `str(n)` left-padded with zeros to `width` (`str.zfill`). -/
def zfill (s : String) (width : ℕ) : String :=
  String.mk (List.replicate (width - s.length) '0') ++ s

/-- `pathlib.Path(p).parent` for slash-separated paths: everything before the
last separator. -/
def parentDir (p : String) : String :=
  String.mk (((p.toList.reverse.dropWhile (fun c => c ≠ '/')).drop 1).reverse)

/-- Python list item assignment `l[i] = a`: `none` is the `IndexError` raised
when `i` is out of range (list assignment does not grow the list). -/
def listSet? (l : List α) (i : ℕ) (a : α) : Option (List α) :=
  if i < l.length then some (l.set i a) else none

/-- Python string indexing `s[i]`, which yields a one-character string or
raises `IndexError`. -/
def strCharAt? (s : String) (i : ℕ) : Option String :=
  let cs := s.toList
  if h : i < cs.length then some (String.mk [cs.get ⟨i, h⟩]) else none

/-- The date index exposed by a headerless `levels.csv` with `n` rows:
pandas `RangeIndex`, i.e. `[0, 1, ..., n-1]`. -/
def rangeDates (n : ℕ) : List ℤ :=
  (List.range n).map Int.ofNat

/-- The fixed index-name whitelist (raster.py 85-90). -/
def validIndices : List String :=
  ["mean-presence-boundary", "maximum-influence-extent",
   "threshold-exceedance-frequency", "permanently-affected-zone",
   "mean-representative-value", "return-period-based-extreme-value",
   "spatial-change-rate", "functional-area-loss",
   "critical-boundary-retreat", "neighborhood",
   "neighborhood-gradient-influence", "environmental-convergence",
   "neighborhood-polarization", "local-persistence",
   "environmental-risk", "directional-influence",
   "multivariate-neighborhood-synergy", "spatiotemporal-coupling",
   "multivariate-threshold-exceedance", "directional-co-evolution",
   "multivariate-persistence", "multivariate-recovery"]

/-- Lines 74-81 of raster.py: the `index` key must be present and a scalar is
wrapped into a one-element list. -/
def normalizeIndex (cfg : Config) : Except PyErr (List String) :=
  match cfg.index with
  | none => Except.error (PyErr.valueError "Index not specified in configuration.")
  | some (IndexField.scalar s) => Except.ok [s]
  | some (IndexField.list l) => Except.ok l

/-- Lines 84-92 of raster.py: the loop raises on the first index name that is
not in the whitelist, naming it. -/
def checkIndexWhitelist (idx : List String) : Except PyErr Unit :=
  match idx.find? (fun i => ! validIndices.contains i) with
  | some bad => Except.error (PyErr.valueError ("Invalid index specified: " ++ bad))
  | none => Except.ok ()

/-- The per-simulation directory probed at raster.py line 103:
`info["directories"]["input_dtm"].parent / str(sim).zfill(4)`. -/
def simDirPath (cfg : Config) (sim : ℕ) : String :=
  parentDir cfg.directories.input_dtm ++ "/" ++ zfill (toString sim) 4

/-- Lines 101-118 of raster.py.  `info["dtm_filenames"]` is initialized to the
empty list and the loop then performs the item assignment
`info["dtm_filenames"][sim] = glob(sim_path)`, which raises `IndexError` for
any index beyond the (empty) list; the zero-TIFF `ValueError` sits after that
assignment.  The right-hand side `glob(sim_path)` is evaluated (an I/O event)
before the assignment is attempted. -/
def simDirsGo (cfg : Config) (fs : FS) :
    List ℕ → List (List String) → List IOEvent →
    Except PyErr (List (List String)) × List IOEvent
  | [], files, tr => (Except.ok files, tr)
  | sim :: rest, files, tr =>
    let sp := simDirPath cfg sim
    let tr1 := tr ++ [IOEvent.pathExistsCheck sp]
    if fs.pathExists sp then
      let g := fs.glob sp
      let tr2 := tr1 ++ [IOEvent.globDir sp]
      match listSet? files sim g with
      | none => (Except.error (PyErr.indexError "list assignment index out of range"), tr2)
      | some files1 =>
        if g.length = 0 then
          (Except.error (PyErr.valueError
            ("No TIFFs found for sim " ++ toString sim ++ " in " ++ cfg.directories.input_dtm)), tr2)
        else simDirsGo cfg fs rest files1 tr2
    else
      (Except.error (PyErr.fileNotFoundError
        ("Simulation " ++ toString sim ++ " directory does not exist: " ++ sp)), tr1)

/-- The `levels.csv` path of raster.py line 147:
`f"{info['directories']['input_dtm']}/{str(sim).zfill(4)}/levels.csv"`. -/
def levelsPath (cfg : Config) (sim : ℕ) : String :=
  cfg.directories.input_dtm ++ "/" ++ zfill (toString sim) 4 ++ "/levels.csv"

/-- Lines 143-164 of raster.py, the per-simulation date-set equality check.
For `sim == 1` the date index is recorded; for any other simulation the list
comparison `np.all(info["dates"] != data.index.tolist())` (a plain-list `!=`,
hence a single bool) raises exactly when the two index lists are unequal.
Reading `info["dates"]` before it was ever assigned would be a `KeyError`. -/
def datesGo (cfg : Config) (fs : FS) :
    List ℕ → Option (List ℤ) → List IOEvent →
    Except PyErr (Option (List ℤ)) × List IOEvent
  | [], dates, tr => (Except.ok dates, tr)
  | sim :: rest, dates, tr =>
    let p := levelsPath cfg sim
    let tr1 := tr ++ [IOEvent.readCsv p]
    match fs.readCsvRows p with
    | none =>
      (Except.error (PyErr.fileNotFoundError
        ("Level series file not found for simulation " ++ toString sim)), tr1)
    | some n =>
      if sim = 1 then datesGo cfg fs rest (some (rangeDates n)) tr1
      else
        match dates with
        | none => (Except.error (PyErr.keyError "dates"), tr1)
        | some d =>
          if d ≠ rangeDates n then
            (Except.error (PyErr.valueError
              "Level dates do not match between simulations 1 and %s."), tr1)
          else datesGo cfg fs rest (some d) tr1

/-- The date-equality check over `info["project"]["no_sims"]` (raster.py
lines 143-164), starting with no `"dates"` key set. -/
def datesStage (cfg : Config) (fs : FS) :
    Except PyErr (Option (List ℤ)) × List IOEvent :=
  datesGo cfg fs cfg.project_no_sims none []

/-- The auxiliary matrix folder of raster.py lines 133-137:
`output_path / temp_folder / "matrix"` (independent of the index name). -/
def matrixFolderPath (dirs : Directories) : String :=
  dirs.output_path ++ "/" ++ dirs.temp_folder ++ "/matrix"

/-- Lines 128-141 of raster.py.  `info["auxiliary_folders"] = {}` sits INSIDE
the per-index loop, so each iteration replaces the whole dictionary and only
the last index survives; the `mkdir` of each iteration is still performed. -/
def auxFoldersStage (idxs : List String) (dirs : Directories) :
    List (String × String) × List IOEvent :=
  idxs.foldl
    (fun st idx =>
      ([(idx, matrixFolderPath dirs)], st.2 ++ [IOEvent.mkdir (matrixFolderPath dirs)]))
    ([], [])

/-- Lines 166-175 of raster.py: each configured horizon time must be a member
of `info["dates"]`; `info["dates"]` is only read inside the loop body. -/
def horizonGo (dates : Option (List ℤ)) : List ℤ → Except PyErr Unit
  | [] => Except.ok ()
  | ht :: rest =>
    match dates with
    | none => Except.error (PyErr.keyError "dates")
    | some d =>
      if ht ∈ d then horizonGo dates rest
      else Except.error (PyErr.valueError "Horizon time %s do not match available dates.")

/-- The horizon-times stage (no-op when the key is absent). -/
def horizonStage (cfg : Config) (dates : Option (List ℤ)) : Except PyErr Unit :=
  match cfg.horizon_times with
  | none => Except.ok ()
  | some hts => horizonGo dates hts

/-- Lines 177-182 of raster.py: every return period must be strictly positive. -/
def rpGo : List ℚ → Except PyErr Unit
  | [] => Except.ok ()
  | rp :: rest =>
    if rp ≤ 0 then Except.error (PyErr.valueError "Return period %s is not positive.")
    else rpGo rest

/-- The return-periods stage (no-op when the key is absent). -/
def returnPeriodsStage (cfg : Config) : Except PyErr Unit :=
  match cfg.return_periods with
  | none => Except.ok ()
  | some rps => rpGo rps

/-- Lines 184-198 of raster.py: the mesh-size advisory.  The code subscripts
`info["directories"]["input_dtm"][1][0]`; on a string that is the second
character (or `IndexError`), and `c[0]` of a one-character string is itself.
The raster at that path is then read with `ascii_tiff` (oracle); the size
thresholds only log, so the stage succeeds whenever the read succeeds. -/
def meshStage (cfg : Config) (fs : FS) : Except PyErr Unit × List IOEvent :=
  match strCharAt? cfg.directories.input_dtm 1 with
  | none => (Except.error (PyErr.indexError "string index out of range"), [])
  | some c =>
    match fs.readRaster c with
    | none => (Except.error (PyErr.fileNotFoundError ("ascii_tiff: " ++ c)), [IOEvent.readRaster c])
    | some _ => (Except.ok (), [IOEvent.readRaster c])

/-- The full `check_inputs` validator (raster.py lines 19-200), as the ordered
composition of its stages, together with the trace of file-system I/O it
performed.  Mask computation happens only afterwards, in `binary_matrix`
(called from `main` after `check_inputs`, lines 378-386), so an error result
here is an abort before any mask computation. -/
def check_inputs (cfg : Config) (fs : FS) : Except PyErr Info × List IOEvent :=
  match normalizeIndex cfg with
  | Except.error e => (Except.error e, [])
  | Except.ok idxList =>
    match checkIndexWhitelist idxList with
    | Except.error e => (Except.error e, [])
    | Except.ok _ =>
      let tr0 : List IOEvent := [IOEvent.pathExistsCheck cfg.input_dtm]
      if fs.pathExists cfg.input_dtm then
        match simDirsGo cfg fs (List.range' 1 (cfg.no_sims - 1)) [] [] with
        | (Except.error e, tr1) => (Except.error e, tr0 ++ tr1)
        | (Except.ok dtmFiles, tr1) =>
          let seasons := cfg.seasons.getD defaultSeasons
          let auxPr := auxFoldersStage idxList cfg.directories
          match datesStage cfg fs with
          | (Except.error e, tr3) => (Except.error e, tr0 ++ tr1 ++ auxPr.2 ++ tr3)
          | (Except.ok dates, tr3) =>
            match horizonStage cfg dates with
            | Except.error e => (Except.error e, tr0 ++ tr1 ++ auxPr.2 ++ tr3)
            | Except.ok _ =>
              match returnPeriodsStage cfg with
              | Except.error e => (Except.error e, tr0 ++ tr1 ++ auxPr.2 ++ tr3)
              | Except.ok _ =>
                match meshStage cfg fs with
                | (Except.error e, tr4) => (Except.error e, tr0 ++ tr1 ++ auxPr.2 ++ tr3 ++ tr4)
                | (Except.ok _, tr4) =>
                  (Except.ok
                    { index := idxList, dtm_filenames := dtmFiles, seasons := seasons,
                      auxiliary_folders := auxPr.1, dates := dates },
                    tr0 ++ tr1 ++ auxPr.2 ++ tr3 ++ tr4)
      else
        (Except.error (PyErr.fileNotFoundError ("Input DTM does not exist: " ++ cfg.input_dtm)), tr0)

/-- Replace the element at index `i` of a list by `f` of it; out-of-range
indices leave the list unchanged (helper for in-place numpy row updates). -/
def modifyAt (l : List α) (i : ℕ) (f : α → α) : List α :=
  match l, i with
  | [], _ => []
  | a :: t, 0 => f a :: t
  | a :: t, Nat.succ i => a :: modifyAt t i f

/-- `np.max` of a level array (the source calls `levels.max()`; the arrays the
pipeline builds are nonempty, e.g. `[absolute_min, absolute_max]`). -/
def listMax : List ℚ → ℚ
  | [] => 0
  | a :: t => t.foldl max a

/-- `np.min` of a level array (`levels.min()` in the source). -/
def listMin : List ℚ → ℚ
  | [] => 0
  | a :: t => t.foldl min a

/-- Line 152 of utils.py: the initial band mask,
`np.where((z < levels.max()) & (z > levels.min()), 1, 0)`, with `1` rendered
as `true` (the source turns the 0/1 matrix into booleans at line 179). -/
def bandInitialMask (z : List (List ℚ)) (lmin lmax : ℚ) : List (List Bool) :=
  z.map (fun row => row.map (fun v => decide (v < lmax) && decide (v > lmin)))

/-- Whether row `i` of the working mask contains a set cell
(`np.any(mask[i, :] == 1)`); out-of-range rows read as empty. -/
def rowAny (m : List (List Bool)) (i : ℕ) : Bool :=
  (m.getD i []).any id

/-- Set row `i` of the mask entirely to `1` (`mask[i, :] = 1`). -/
def setRowAllTrue (m : List (List Bool)) (i : ℕ) : List (List Bool) :=
  modifyAt m i (fun row => row.map (fun _ => true))

/-- Lines 165-170 of utils.py: the `"WE"` extension loop over row indices
`range(da_dem["y"].shape[0])`, also counting the included rows in `len_`. -/
def weLoop : List ℕ → List (List Bool) × ℕ → List (List Bool) × ℕ
  | [], st => st
  | i :: rest, (m, l) =>
    if rowAny m i then weLoop rest (setRowAllTrue m i, l + 1) else weLoop rest (m, l)

/-- Whether column `i` of the working mask contains a set cell
(`np.any(mask[:, i] == 1)`). -/
def colAny (m : List (List Bool)) (i : ℕ) : Bool :=
  m.any (fun row => row.getD i false)

/-- Set column `i` of the mask entirely to `1` (`mask[:, i] = 1`); rows too
short to have column `i` are unchanged (numpy arrays are rectangular). -/
def setColAllTrue (m : List (List Bool)) (i : ℕ) : List (List Bool) :=
  m.map (fun row => row.set i true)

/-- Lines 171-176 of utils.py: the `"NS"` extension loop over column indices
`range(da_dem["y"].shape[1])`. -/
def nsLoop : List ℕ → List (List Bool) × ℕ → List (List Bool) × ℕ
  | [], st => st
  | i :: rest, (m, l) =>
    if colAny m i then nsLoop rest (setColAllTrue m i, l + 1) else nsLoop rest (m, l)

/-- Numpy boolean indexing `a[band_]`: the row-major list of the entries of
`a` at the `true` positions of the mask. -/
def maskedVals (a : List (List ℚ)) (m : List (List Bool)) : List ℚ :=
  ((a.zip m).map
    (fun p => (p.1.zip p.2).filterMap (fun q => if q.2 then some q.1 else none))).flatten

/-- Cut a flat list into consecutive rows of length `size` (the divisible case
of `np.reshape(xs, (-1, size))`; the fuel is the list length). -/
def chunkList : ℕ → List ℚ → ℕ → List (List ℚ)
  | 0, _, _ => []
  | _, [], _ => []
  | Nat.succ fuel, l, size => l.take size :: chunkList fuel (l.drop size) size

/-- `np.reshape(xs, (-1, len_))` for the `"NS"` branch (rows of length `len_`). -/
def reshapeCols (xs : List ℚ) (len_ : ℕ) : List (List ℚ) :=
  if len_ = 0 then [] else chunkList xs.length xs len_

/-- `np.reshape(xs, (len_, -1))` for the `"WE"` branch (`len_` rows, so rows of
length `xs.length / len_` in the divisible case the pipeline produces). -/
def reshapeRows (xs : List ℚ) (len_ : ℕ) : List (List ℚ) :=
  if len_ = 0 then [] else chunkList xs.length xs (xs.length / len_)

/-- The reshaped (or, for an unrecognized orientation, flat 1-D) masked
coordinate arrays returned by `band`. -/
inductive Coords where
  | flat (xs ys : List ℚ)
  | grid (xs ys : List (List ℚ))
  deriving DecidableEq

/-- Lines 121-191 of utils.py, `band`.  The initial mask keeps cells strictly
between `levels.min()` and `levels.max()`; for `"WE"` every row containing a
set cell is filled, for `"NS"` every such column; for any other orientation
string both `if/elif` chains fall through, so the mask stays unextended and
the masked coordinates stay flat 1-D (no reshape, `len_ = 0`).  The debug-mode
plotting (lines 155-160) has no effect on the result and is omitted. -/
def band (da_dem : Dem) (levels : List ℚ) (orientation_ : String) :
    List (List Bool) × Coords :=
  let z_ := bandInitialMask da_dem.z (listMin levels) (listMax levels)
  let st :=
    if orientation_ = "WE" then weLoop (List.range da_dem.y.length) (z_, 0)
    else if orientation_ = "NS" then nsLoop (List.range (da_dem.y.headD []).length) (z_, 0)
    else (z_, 0)
  let band_ := st.1
  let len_ := st.2
  let xx := maskedVals da_dem.x band_
  let yy := maskedVals da_dem.y band_
  if orientation_ = "NS" then (band_, Coords.grid (reshapeCols xx len_) (reshapeCols yy len_))
  else if orientation_ = "WE" then (band_, Coords.grid (reshapeRows xx len_) (reshapeRows yy len_))
  else (band_, Coords.flat xx yy)

/-- Entry `(i, j)` of a mask, reading out-of-range positions as `false`. -/
def maskGet (m : List (List Bool)) (i j : ℕ) : Bool :=
  (m.getD i []).getD j false

/-- Elevation sample `z[i, j]` of a grid (out-of-range reads as `0`). -/
def zAt (dem : Dem) (i j : ℕ) : ℚ :=
  (dem.z.getD i []).getD j 0

/-- Cell `(i, j)` lies strictly inside the level interval. -/
def inBand (dem : Dem) (levels : List ℚ) (i j : ℕ) : Prop :=
  listMin levels < zAt dem i j ∧ zAt dem i j < listMax levels

/-- Python `atan2` (`np.arctan2(y, x)`), modelled by the complex argument. -/
noncomputable def arctan2 (y x : ℝ) : ℝ :=
  Complex.arg (↑x + ↑y * Complex.I)

/-- Lines 73-90 of utils.py: the grid-orientation angle computed by
`calculate_grid_angle_and_create_rotated_mesh` from the corner edge vectors
`(dx1, dy1) = (x[0,-1]-x[0,0], y[0,-1]-y[0,0])` and
`(dx2, dy2) = (x[-1,0]-x[0,0], y[-1,0]-y[0,0])`: `np.arctan2(dy1, dx1)` when
the horizontal vector is strictly longer, otherwise
`np.arctan2(dx2, dy2) - np.pi / 2` (note the argument order `dx2, dy2` in the
source).  The subsequent mesh construction (lines 92-118) consumes this angle
and is not needed by any claim. -/
noncomputable def calculate_grid_angle {m n : ℕ}
    (x_dem y_dem : Fin (m + 1) → Fin (n + 1) → ℝ) : ℝ :=
  let dx1 := x_dem 0 (Fin.last n) - x_dem 0 0
  let dy1 := y_dem 0 (Fin.last n) - y_dem 0 0
  let dx2 := x_dem (Fin.last m) 0 - x_dem 0 0
  let dy2 := y_dem (Fin.last m) 0 - y_dem 0 0
  if Real.sqrt (dx1 ^ 2 + dy1 ^ 2) > Real.sqrt (dx2 ^ 2 + dy2 ^ 2) then
    arctan2 dy1 dx1
  else
    arctan2 dx2 dy2 - Real.pi / 2

/-- Modelled from the spec (§4.1): "angle = atan2 of the horizontal vector if
it is longer, otherwise atan2 of the vertical vector minus 90°", with `atan2`
applied to a vector's components in the standard `(y, x)` order.  A second,
clearly separate definition following the spec's words, for comparison with
the source's `calculate_grid_angle` in claim C3. -/
noncomputable def grid_angle_spec {m n : ℕ}
    (x_dem y_dem : Fin (m + 1) → Fin (n + 1) → ℝ) : ℝ :=
  let dx1 := x_dem 0 (Fin.last n) - x_dem 0 0
  let dy1 := y_dem 0 (Fin.last n) - y_dem 0 0
  let dx2 := x_dem (Fin.last m) 0 - x_dem 0 0
  let dy2 := y_dem (Fin.last m) 0 - y_dem 0 0
  if Real.sqrt (dx1 ^ 2 + dy1 ^ 2) > Real.sqrt (dx2 ^ 2 + dy2 ^ 2) then
    arctan2 dy1 dx1
  else
    arctan2 dy2 dx2 - Real.pi / 2

/-- Names defined at module level in utils.py (imports, the debug flag and the
module's own functions); neither `season` nor `stretch` is among them. -/
def utilsModuleNames : List String :=
  ["os", "Path", "plt", "np", "pd", "LinearNDInterpolator", "DEBUG_MODE",
   "calculate_grid_angle_and_create_rotated_mesh", "band", "refinement",
   "save2GISapp", "save_matrix_to_netcdf"]

/-- Names bound inside `save_matrix_to_netcdf` (its parameters and the local
`import xarray as xr`); the dataset body references none besides these. -/
def saveMatrixLocalNames : List String :=
  ["data", "coordinates", "time", "info", "sim_no", "filename", "xr"]

/-- Python name resolution inside `save_matrix_to_netcdf`: a name not bound
locally nor at module level raises `NameError` and yields no value. -/
def undefinedNameLookup (locals_ : List String) (nm : String) : Except PyErr Empty :=
  if locals_.contains nm || utilsModuleNames.contains nm then
    Except.error (PyErr.valueError "unreachable: the names this is applied to are unbound")
  else Except.error (PyErr.nameError nm)

/-- Lines 299-324 of utils.py, `save_matrix_to_netcdf`.  The first expression
evaluated when building the `xr.Dataset` is the `data_vars` entry
`("time", "dim_x", "dim_y"), data[season]` — and `season` is a free name,
bound neither among the function's parameters/locals nor at utils.py module
level, so the call raises `NameError: season` before anything is packed or
written.  (Were it defined, the body would next hit `coordinates["x"]` /
`coordinates["y"]` — while `binary_matrix` passes a dict with keys `"X"`/`"Y"`
— and the equally free name `stretch` in the attrs; all of that is dead code,
represented here by the `Empty` elimination.) -/
def save_matrix_to_netcdf (data : List (ℤ × List (List Bool)))
    (coordinates : List (String × List (List ℚ))) (time : List ℤ)
    (info : Config) (sim_no : ℕ) (filename : String) : Except PyErr Unit :=
  (undefinedNameLookup saveMatrixLocalNames "season").bind (fun v => v.elim)

/- Concrete grids and configurations used as witnesses below. -/

/-- A tall unrotated 2x2 grid (rotation angle zero): horizontal edge vector
`(1, 0)`, vertical edge vector `(0, 5)` — the vertical branch of the angle
computation is taken. -/
noncomputable def xTall : Fin 2 → Fin 2 → ℝ := ![![0, 1], ![0, 1]]

/-- The y-coordinates of the tall unrotated grid. -/
noncomputable def yTall : Fin 2 → Fin 2 → ℝ := ![![0, 0], ![5, 5]]

/-- A fully degenerate 2x2 grid: all corner samples coincide at the origin,
so both edge vectors are zero. -/
noncomputable def degenerate_grid : Fin 2 → Fin 2 → ℝ := fun _ _ => 0

/-- A 2x2 raster used by the band witnesses: only `z[0][1] = 5` lies strictly
inside the level interval `(1, 7)`. -/
def demW : Dem :=
  { x := [[0, 1], [0, 1]], y := [[0, 0], [1, 1]], z := [[0, 5], [9, 9]] }

/-- A tiny 1x1 raster returned by the mesh-advisory oracle of `fsOk`. -/
def demTiny : Dem := { x := [[0]], y := [[0]], z := [[0]] }

/-- A file system on which nothing exists (for claims that never reach I/O). -/
def fsTriv : FS :=
  { pathExists := fun _ => false, glob := fun _ => [],
    readCsvRows := fun _ => none, readRaster := fun _ => none }

/-- A configuration whose index list contains a name outside the whitelist. -/
def cfgBogusIndex : Config :=
  { index := some (IndexField.list ["bogus-index"]), input_dtm := "dtm.tif",
    no_sims := 2, directories := { input_dtm := "data/in", output_path := "out", temp_folder := "tmp" },
    seasons := none, horizon_times := none, return_periods := none,
    project_no_sims := [1, 2], grid_size := 1 }

/-- The end-to-end scenario configuration of claim C2: a 2-simulation run with
`index="flooded_area"`, refinement disabled (the 10x10 grid, the three dates
and the level series live behind the file-system oracle, which this claim
never reaches). -/
def cfgScenario : Config :=
  { index := some (IndexField.scalar "flooded_area"), input_dtm := "dtm.tif",
    no_sims := 2, directories := { input_dtm := "data/in", output_path := "out", temp_folder := "tmp" },
    seasons := none, horizon_times := none, return_periods := none,
    project_no_sims := [1, 2], grid_size := 1 }

/-- A well-formed 2-simulation configuration with a whitelisted index: the
failing input of claim C7. -/
def cfgSimDirs : Config :=
  { index := some (IndexField.list ["neighborhood"]), input_dtm := "dtm.tif",
    no_sims := 2, directories := { input_dtm := "data/in", output_path := "out", temp_folder := "tmp" },
    seasons := none, horizon_times := none, return_periods := none,
    project_no_sims := [1], grid_size := 1 }

/-- A file system for `cfgSimDirs`: the DTM and the simulation-1 directory
exist and the directory even contains a raster file. -/
def fsSimDirs : FS :=
  { pathExists := fun p => decide (p = "dtm.tif") || decide (p = "data/0001"),
    glob := fun _ => ["a.tif"],
    readCsvRows := fun _ => none, readRaster := fun _ => none }

/-- A 2-simulation configuration for the date-equality witnesses (its
`no_sims` int is 1 so the broken per-directory loop body never runs, while
`project.no_sims` lists the two simulations the date check iterates). -/
def cfgDates : Config :=
  { index := some (IndexField.list ["neighborhood"]), input_dtm := "dtm.tif",
    no_sims := 1, directories := { input_dtm := "data/in", output_path := "out", temp_folder := "tmp" },
    seasons := none, horizon_times := none, return_periods := none,
    project_no_sims := [1, 2], grid_size := 1 }

/-- Level files with two rows for simulation 1 and three rows for simulation
2: the two date indices differ. -/
def fsDatesBad : FS :=
  { pathExists := fun p => decide (p = "dtm.tif"),
    glob := fun _ => [],
    readCsvRows := fun p =>
      if p = "data/in/0001/levels.csv" then some 2
      else if p = "data/in/0002/levels.csv" then some 3 else none,
    readRaster := fun _ => none }

/-- Level files with three rows for both simulations: identical date indices. -/
def fsDatesGood : FS :=
  { pathExists := fun p => decide (p = "dtm.tif"),
    glob := fun _ => [],
    readCsvRows := fun p =>
      if p = "data/in/0001/levels.csv" then some 3
      else if p = "data/in/0002/levels.csv" then some 3 else none,
    readRaster := fun _ => none }

/-- A configuration on which `check_inputs` can run to completion, with two
requested indices (for claim C10). -/
def cfgOk : Config :=
  { index := some (IndexField.list ["neighborhood", "environmental-risk"]),
    input_dtm := "dtm.tif",
    no_sims := 1, directories := { input_dtm := "data/in", output_path := "out", temp_folder := "tmp" },
    seasons := none, horizon_times := none, return_periods := none,
    project_no_sims := [1], grid_size := 1 }

/-- The file system making `check_inputs cfgOk` succeed: the DTM path exists,
simulation 1 has a three-row `levels.csv`, and the mesh-advisory raster read
(at the path `"a"`, the second character of `"data/in"` — the code subscripts
the directory string) succeeds. -/
def fsOk : FS :=
  { pathExists := fun p => decide (p = "dtm.tif"),
    glob := fun _ => [],
    readCsvRows := fun p => if p = "data/in/0001/levels.csv" then some 3 else none,
    readRaster := fun p => if p = "a" then some demTiny else none }

/-- The enriched configuration produced by `check_inputs cfgOk fsOk`: note
that of the two requested indices only the last survives in
`auxiliary_folders`. -/
def infoOk : Info :=
  { index := ["neighborhood", "environmental-risk"],
    dtm_filenames := [],
    seasons := defaultSeasons,
    auxiliary_folders := [("environmental-risk", "out/tmp/matrix")],
    dates := some [0, 1, 2] }

/-- The I/O trace of `check_inputs cfgOk fsOk` (one `mkdir` per requested
index, both to the same folder). -/
def trOk : List IOEvent :=
  [IOEvent.pathExistsCheck "dtm.tif",
   IOEvent.mkdir "out/tmp/matrix", IOEvent.mkdir "out/tmp/matrix",
   IOEvent.readCsv "data/in/0001/levels.csv",
   IOEvent.readRaster "a"]

/-- Reading past the end of a list yields the default. -/
theorem getD_of_le (l : List α) (d : α) (i : ℕ) (h : l.length ≤ i) :
    l.getD i d = d := by
  induction l generalizing i with
  | nil => cases i <;> rfl
  | cons a t ih =>
    cases i with
    | zero => simp at h
    | succ i => exact ih i (Nat.le_of_succ_le_succ h)

/-- Reading a mapped list inside the range evaluates the function at the
original entry, for any pair of defaults. -/
theorem getD_map_lt (l : List α) (f : α → β) (d : α) (d' : β) (i : ℕ)
    (h : i < l.length) : (l.map f).getD i d' = f (l.getD i d) := by
  induction l generalizing i with
  | nil => simp at h
  | cons a t ih =>
    cases i with
    | zero => rfl
    | succ i => exact ih i (Nat.lt_of_succ_lt_succ h)

/-- An in-range `getD` entry is a member of the list. -/
theorem getD_mem_of_lt (l : List α) (d : α) (i : ℕ) (h : i < l.length) :
    l.getD i d ∈ l := by
  induction l generalizing i with
  | nil => simp at h
  | cons a t ih =>
    cases i with
    | zero => exact List.mem_cons_self a t
    | succ i => exact List.mem_cons_of_mem a (ih i (Nat.lt_of_succ_lt_succ h))

/-- `modifyAt` preserves length. -/
theorem length_modifyAt (l : List α) (i : ℕ) (f : α → α) :
    (modifyAt l i f).length = l.length := by
  induction l generalizing i with
  | nil => rfl
  | cons a t ih => cases i with
    | zero => rfl
    | succ i => simpa [modifyAt] using ih i

/-- `modifyAt` does not touch other positions. -/
theorem modifyAt_getD_ne (l : List α) (i k : ℕ) (f : α → α) (d : α)
    (h : k ≠ i) : (modifyAt l i f).getD k d = l.getD k d := by
  induction l generalizing i k with
  | nil => rfl
  | cons a t ih =>
    cases i with
    | zero =>
      cases k with
      | zero => exact absurd rfl h
      | succ k => rfl
    | succ i =>
      cases k with
      | zero => rfl
      | succ k => exact ih i k (fun hh => h (by simpa using hh))

/-- `modifyAt` applies the function at an in-range position. -/
theorem modifyAt_getD_self (l : List α) (i : ℕ) (f : α → α) (d : α)
    (h : i < l.length) : (modifyAt l i f).getD i d = f (l.getD i d) := by
  induction l generalizing i with
  | nil => simp at h
  | cons a t ih =>
    cases i with
    | zero => rfl
    | succ i => exact ih i (Nat.lt_of_succ_lt_succ h)

/-- `List.set` beyond the end of the list is the identity. -/
theorem set_of_length_le (l : List α) (i : ℕ) (a : α) (h : l.length ≤ i) :
    l.set i a = l := by
  induction l generalizing i with
  | nil => rfl
  | cons b t ih =>
    cases i with
    | zero => simp at h
    | succ i => simpa [List.set] using ih i (Nat.le_of_succ_le_succ h)

/-- `List.set` writes the value at an in-range position. -/
theorem getD_set_self (l : List α) (i : ℕ) (a d : α) (h : i < l.length) :
    (l.set i a).getD i d = a := by
  induction l generalizing i with
  | nil => simp at h
  | cons b t ih =>
    cases i with
    | zero => rfl
    | succ i => exact ih i (Nat.lt_of_succ_lt_succ h)

/-- `List.set` does not touch other positions. -/
theorem getD_set_ne (l : List α) (i k : ℕ) (a d : α) (h : k ≠ i) :
    (l.set i a).getD k d = l.getD k d := by
  induction l generalizing i k with
  | nil => rfl
  | cons b t ih =>
    cases i with
    | zero =>
      cases k with
      | zero => exact absurd rfl h
      | succ k => rfl
    | succ i =>
      cases k with
      | zero => rfl
      | succ k => exact ih i k (fun hh => h (by simpa using hh))

/-- A boolean `any` holds exactly when some in-range `getD` entry satisfies
the predicate. -/
theorem any_iff_exists_getD (l : List α) (p : α → Bool) (d : α) :
    l.any p = true ↔ ∃ i, i < l.length ∧ p (l.getD i d) = true := by
  induction l with
  | nil => simp
  | cons a t ih =>
    simp only [List.any_cons, Bool.or_eq_true, ih, List.length_cons]
    constructor
    · rintro (hp | ⟨i, hi, hp⟩)
      · exact ⟨0, Nat.succ_pos _, hp⟩
      · exact ⟨i + 1, Nat.succ_lt_succ hi, hp⟩
    · rintro ⟨i, hi, hp⟩
      cases i with
      | zero => exact Or.inl hp
      | succ i => exact Or.inr ⟨i, Nat.lt_of_succ_lt_succ hi, hp⟩

/-- A set row is witnessed in range: reading past the mask yields the empty
row, whose `any` is false. -/
theorem lt_length_of_rowAny (m : List (List Bool)) (i : ℕ)
    (h : rowAny m i = true) : i < m.length := by
  by_contra hi
  rw [rowAny, getD_of_le m [] i (Nat.le_of_not_lt hi)] at h
  simp at h

/-- The final mask of the `"WE"` extension loop, row by row: a row whose index
was visited and which contained a set cell is entirely `1`; every other row is
unchanged. -/
theorem weLoop_fst_getD (is : List ℕ) (his : is.Nodup) (m : List (List Bool))
    (l k : ℕ) :
    (weLoop is (m, l)).1.getD k [] =
      if k ∈ is ∧ rowAny m k = true then (m.getD k []).map (fun _ => true)
      else m.getD k [] := by
  induction is generalizing m l with
  | nil => simp [weLoop]
  | cons i rest ih =>
    rcases List.nodup_cons.mp his with ⟨hnotin, hrest⟩
    by_cases hA : rowAny m i = true
    · have hilt : i < m.length := lt_length_of_rowAny m i hA
      have hstep : weLoop (i :: rest) (m, l) = weLoop rest (setRowAllTrue m i, l + 1) := by
        simp [weLoop, hA]
      rw [hstep, ih hrest]
      by_cases hk : k = i
      · subst hk
        have h1 : (setRowAllTrue m k).getD k [] = (m.getD k []).map (fun _ => true) :=
          modifyAt_getD_self m k _ [] hilt
        have h2 : ¬ (k ∈ rest ∧ rowAny (setRowAllTrue m k) k = true) := by
          intro hc; exact hnotin hc.1
        rw [if_neg h2, h1,
          if_pos (⟨List.mem_cons_self k rest, hA⟩ : k ∈ k :: rest ∧ rowAny m k = true)]
      · have h1 : (setRowAllTrue m i).getD k [] = m.getD k [] :=
          modifyAt_getD_ne m i k _ [] hk
        have h2 : rowAny (setRowAllTrue m i) k = rowAny m k := by
          rw [rowAny, rowAny, h1]
        rw [h1, h2]
        have h3 : (k ∈ i :: rest) ↔ (k ∈ rest) := by simp [List.mem_cons, hk]
        simp only [h3]
    · have hstep : weLoop (i :: rest) (m, l) = weLoop rest (m, l) := by
        simp [weLoop, hA]
      rw [hstep, ih hrest]
      by_cases hk : k = i
      · subst hk
        simp [hA]
      · have h3 : (k ∈ i :: rest) ↔ (k ∈ rest) := by simp [List.mem_cons, hk]
        simp only [h3]

/-- Setting a whole column rewrites each row pointwise (rows too short for the
column are unchanged, like numpy never produces). -/
theorem getD_setColAllTrue (m : List (List Bool)) (i k : ℕ) :
    (setColAllTrue m i).getD k [] = (m.getD k []).set i true := by
  by_cases hk : k < m.length
  · exact getD_map_lt m _ [] [] k hk
  · rw [setColAllTrue, getD_of_le _ [] k (by simpa using Nat.le_of_not_lt hk),
      getD_of_le m [] k (Nat.le_of_not_lt hk)]
    rfl

/-- Setting column `i` does not change whether another column has a set cell. -/
theorem colAny_setColAllTrue_ne (m : List (List Bool)) (i j : ℕ) (h : j ≠ i) :
    colAny (setColAllTrue m i) j = colAny m j := by
  induction m with
  | nil => rfl
  | cons r t ih =>
    show ((r.set i true).getD j false || colAny (setColAllTrue t i) j)
        = (r.getD j false || colAny t j)
    rw [getD_set_ne r i j true false h, ih]

/-- The final mask of the `"NS"` extension loop, entry by entry: an entry in a
visited column that contained a set cell (and exists in its row) is `1`; every
other entry is unchanged. -/
theorem nsLoop_entry (is : List ℕ) (his : is.Nodup) (m : List (List Bool))
    (l k j : ℕ) :
    ((nsLoop is (m, l)).1.getD k []).getD j false =
      if j ∈ is ∧ colAny m j = true ∧ j < (m.getD k []).length then true
      else (m.getD k []).getD j false := by
  induction is generalizing m l with
  | nil => simp [nsLoop]
  | cons i rest ih =>
    rcases List.nodup_cons.mp his with ⟨hnotin, hrest⟩
    by_cases hA : colAny m i = true
    · have hstep : nsLoop (i :: rest) (m, l) = nsLoop rest (setColAllTrue m i, l + 1) := by
        simp [nsLoop, hA]
      rw [hstep, ih hrest]
      have hrow : (setColAllTrue m i).getD k [] = (m.getD k []).set i true :=
        getD_setColAllTrue m i k
      have hlen : ((setColAllTrue m i).getD k []).length = (m.getD k []).length := by
        rw [hrow, List.length_set]
      by_cases hj : j = i
      · subst hj
        have h2 : ¬ (j ∈ rest ∧ colAny (setColAllTrue m j) j = true ∧
            j < ((setColAllTrue m j).getD k []).length) := by
          intro hc; exact hnotin hc.1
        rw [if_neg h2, hrow]
        by_cases hjr : j < (m.getD k []).length
        · rw [getD_set_self _ j true false hjr,
            if_pos (⟨List.mem_cons_self j rest, hA, hjr⟩ :
              j ∈ j :: rest ∧ colAny m j = true ∧ j < (m.getD k []).length)]
        · rw [set_of_length_le _ j true (Nat.le_of_not_lt hjr),
            if_neg (fun hc => hjr hc.2.2)]
      · have hcol : colAny (setColAllTrue m i) j = colAny m j :=
          colAny_setColAllTrue_ne m i j hj
        have hentry : ((setColAllTrue m i).getD k []).getD j false =
            (m.getD k []).getD j false := by
          rw [hrow]; exact getD_set_ne _ i j true false hj
        rw [hcol, hlen, hentry]
        have h3 : (j ∈ i :: rest) ↔ (j ∈ rest) := by simp [List.mem_cons, hj]
        simp only [h3]
    · have hstep : nsLoop (i :: rest) (m, l) = nsLoop rest (m, l) := by
        simp [nsLoop, hA]
      rw [hstep, ih hrest]
      by_cases hj : j = i
      · subst hj
        simp [hA]
      · have h3 : (j ∈ i :: rest) ↔ (j ∈ rest) := by simp [List.mem_cons, hj]
        simp only [h3]

/-- Two `RangeIndex` date lists agree only for equal row counts. -/
theorem rangeDates_inj (m n : ℕ) (h : rangeDates m = rangeDates n) : m = n := by
  have := congrArg List.length h
  simpa [rangeDates] using this

/-- If some visited simulation's `levels.csv` has a row count different from
simulation 1's, the date-check loop ends in an error (whatever error an
earlier visited simulation may also produce). -/
theorem datesGo_error_of_mismatch (cfg : Config) (fs : FS) (n1 : ℕ)
    (h1 : fs.readCsvRows (levelsPath cfg 1) = some n1) :
    ∀ (sims : List ℕ) (d : Option (List ℤ)) (tr : List IOEvent),
    (d = none ∨ d = some (rangeDates n1)) →
    (∃ s ∈ sims, ∃ mm, fs.readCsvRows (levelsPath cfg s) = some mm ∧ mm ≠ n1) →
    ∃ e, (datesGo cfg fs sims d tr).1 = Except.error e := by
  intro sims
  induction sims with
  | nil =>
    intro d tr _ hw
    rcases hw with ⟨s, hs, _⟩
    simp at hs
  | cons a rest ih =>
    intro d tr hd hw
    rcases hr : fs.readCsvRows (levelsPath cfg a) with _ | mm
    · exact ⟨PyErr.fileNotFoundError
        ("Level series file not found for simulation " ++ toString a),
        by simp [datesGo, hr]⟩
    · by_cases ha : a = 1
      · subst ha
        have hmm : mm = n1 := by
          rw [h1] at hr; exact (Option.some.inj hr).symm
        subst hmm
        have hw' : ∃ s ∈ rest, ∃ m2, fs.readCsvRows (levelsPath cfg s) = some m2 ∧ m2 ≠ mm := by
          rcases hw with ⟨s, hs, m2, hread, hne⟩
          rcases List.mem_cons.mp hs with hs1 | hs2
          · subst hs1
            rw [hr] at hread
            exact absurd (Option.some.inj hread).symm hne
          · exact ⟨s, hs2, m2, hread, hne⟩
        have := ih (some (rangeDates mm)) (tr ++ [IOEvent.readCsv (levelsPath cfg 1)])
          (Or.inr rfl) hw'
        rcases this with ⟨e, he⟩
        exact ⟨e, by simpa [datesGo, hr] using he⟩
      · rcases hd with hd | hd
        · subst hd
          exact ⟨PyErr.keyError "dates", by simp [datesGo, hr, ha]⟩
        · subst hd
          by_cases hmm : mm = n1
          · subst hmm
            have hw' : ∃ s ∈ rest, ∃ m2, fs.readCsvRows (levelsPath cfg s) = some m2 ∧ m2 ≠ mm := by
              rcases hw with ⟨s, hs, m2, hread, hne⟩
              rcases List.mem_cons.mp hs with hs1 | hs2
              · subst hs1
                rw [hr] at hread
                exact absurd (Option.some.inj hread).symm hne
              · exact ⟨s, hs2, m2, hread, hne⟩
            have := ih (some (rangeDates mm))
              (tr ++ [IOEvent.readCsv (levelsPath cfg a)]) (Or.inr rfl) hw'
            rcases this with ⟨e, he⟩
            refine ⟨e, ?_⟩
            have hcond : ¬ (rangeDates mm ≠ rangeDates mm) := fun hc => hc rfl
            simpa [datesGo, hr, ha, hcond] using he
          · have hcond : rangeDates n1 ≠ rangeDates mm :=
              fun hc => hmm (rangeDates_inj mm n1 hc.symm)
            exact ⟨PyErr.valueError "Level dates do not match between simulations 1 and %s.",
              by simp [datesGo, hr, ha, hcond]⟩

/-- If every visited simulation's `levels.csv` has the same row count as the
recorded date index, the date-check loop succeeds and keeps that index. -/
theorem datesGo_ok_of_equal (cfg : Config) (fs : FS) (n1 : ℕ) :
    ∀ (sims : List ℕ) (tr : List IOEvent),
    (∀ s ∈ sims, fs.readCsvRows (levelsPath cfg s) = some n1) →
    (datesGo cfg fs sims (some (rangeDates n1)) tr).1 = Except.ok (some (rangeDates n1)) := by
  intro sims
  induction sims with
  | nil => intro tr _; simp [datesGo]
  | cons a rest ih =>
    intro tr hall
    have hr : fs.readCsvRows (levelsPath cfg a) = some n1 :=
      hall a (List.mem_cons_self a rest)
    have hrest : ∀ s ∈ rest, fs.readCsvRows (levelsPath cfg s) = some n1 :=
      fun s hs => hall s (List.mem_cons_of_mem a hs)
    by_cases ha : a = 1
    · subst ha
      simpa [datesGo, hr] using ih _ hrest
    · have hcond : ¬ (rangeDates n1 ≠ rangeDates n1) := fun hc => hc rfl
      simpa [datesGo, hr, ha, hcond] using ih _ hrest

/-- The per-index folder fold keeps only the entry of the last index, for any
starting state. -/
theorem auxFolders_foldl_last (dirs : Directories) :
    ∀ (l : List String) (st : List (String × String) × List IOEvent) (li : String),
    l.getLast? = some li →
    (l.foldl
      (fun st idx =>
        ([(idx, matrixFolderPath dirs)], st.2 ++ [IOEvent.mkdir (matrixFolderPath dirs)]))
      st).1 = [(li, matrixFolderPath dirs)] := by
  intro l
  induction l with
  | nil => intro st li h; simp at h
  | cons a rest ih =>
    intro st li h
    cases rest with
    | nil =>
      simp only [List.getLast?_singleton] at h
      simp [Option.some.inj h]
    | cons b t =>
      rw [List.getLast?_cons_cons] at h
      exact ih _ li h

/-- The auxiliary-folders stage records exactly the last requested index. -/
theorem auxFoldersStage_last (idxs : List String) (dirs : Directories)
    (li : String) (h : idxs.getLast? = some li) :
    (auxFoldersStage idxs dirs).1 = [(li, matrixFolderPath dirs)] :=
  auxFolders_foldl_last dirs idxs ([], []) li h

/-- The `atan2` model at a point on the positive x-axis. -/
theorem arctan2_zero_of_pos (x : ℝ) (hx : 0 < x) : arctan2 0 x = 0 := by
  rw [arctan2]
  simp only [Complex.ofReal_zero, zero_mul, add_zero]
  exact Complex.arg_ofReal_of_nonneg hx.le

/-- The `atan2` model at a point on the positive y-axis. -/
theorem arctan2_of_pos_zero (y : ℝ) (hy : 0 < y) : arctan2 y 0 = Real.pi / 2 := by
  rw [arctan2]
  simp only [Complex.ofReal_zero, zero_add]
  rw [Complex.arg_real_mul Complex.I hy, Complex.arg_I]

/-- The `atan2` model at the origin: `np.arctan2(0.0, 0.0)` is `0.0`. -/
theorem arctan2_zero_zero : arctan2 0 0 = 0 := by
  rw [arctan2]
  simp

/-- C6: when the requested index list contains a name outside the fixed
22-name whitelist, `check_inputs` raises a `ValueError` naming the offending
(first invalid) index, and the returned I/O trace is empty: the rejection
happens before any path-existence check or file read. -/
theorem C6_invalid_index_rejected_before_io (cfg : Config) (fs : FS)
    (l : List String) (bad : String)
    (hnorm : normalizeIndex cfg = Except.ok l)
    (hbad : l.find? (fun i => ! validIndices.contains i) = some bad) :
    check_inputs cfg fs =
      (Except.error (PyErr.valueError ("Invalid index specified: " ++ bad)), []) := by
  simp only [check_inputs, checkIndexWhitelist, hnorm, hbad]

/-- Witness for C6: the concrete configuration requesting `"bogus-index"` is
rejected with the offending name and an empty I/O trace. -/
theorem C6_invalid_index_rejected_before_io_witness :
    check_inputs cfgBogusIndex fsTriv =
      (Except.error (PyErr.valueError ("Invalid index specified: " ++ "bogus-index")), []) :=
  C6_invalid_index_rejected_before_io cfgBogusIndex fsTriv ["bogus-index"] "bogus-index"
    rfl (by decide)

/-- C2 (code bug): the end-to-end scenario cannot be run by the code.  Its
index `"flooded_area"` — one of the names `binary_matrix` dispatches on — is
not in `check_inputs`' whitelist, so validation (which `main` runs before
`binary_matrix`) rejects the scenario configuration for every file system and
no mask is ever computed; the claimed per-date masks `z < level[date]` are
unreachable.  (Even past validation, `binary_matrix` selects `level` once per
simulation, comparing the list-valued `info["index"]` against strings — always
false — and reading `df_levels_per_date` before assignment, so the per-date
selection the claim describes does not exist in the code.) -/
theorem C2_scenario_rejected_by_whitelist (cfg : Config) (fs : FS)
    (h : cfg.index = some (IndexField.scalar "flooded_area")) :
    (check_inputs cfg fs).1 =
      Except.error (PyErr.valueError ("Invalid index specified: " ++ "flooded_area")) := by
  have hnorm : normalizeIndex cfg = Except.ok ["flooded_area"] := by
    simp [normalizeIndex, h]
  have hbad : (["flooded_area"].find? (fun i => ! validIndices.contains i))
      = some "flooded_area" := by decide
  simp only [check_inputs, checkIndexWhitelist, hnorm, hbad]

/-- Witness for C2 at the concrete scenario configuration (2 simulations,
`index="flooded_area"`, refinement disabled). -/
theorem C2_scenario_rejected_by_whitelist_witness :
    (check_inputs cfgScenario fsTriv).1 =
      Except.error (PyErr.valueError ("Invalid index specified: " ++ "flooded_area")) :=
  C2_scenario_rejected_by_whitelist cfgScenario fsTriv rfl

/-- C7 (code bug): for a configuration whose simulation directory exists and
even contains a raster file, `check_inputs` does not catalog the files and
check for emptiness as claimed: the item assignment
`info["dtm_filenames"][sim] = glob(sim_path)` writes into the empty list
created two lines above and raises `IndexError`, before the zero-TIFF
`ValueError` can ever be reached. -/
theorem C7_sim_dirs_index_error :
    (check_inputs cfgSimDirs fsSimDirs).1 =
      Except.error (PyErr.indexError "list assignment index out of range") := by
  rfl

/-- C8 (code bug): `save_matrix_to_netcdf` never packs anything: for every
input, building the `xr.Dataset` evaluates `data[season]` where `season` is an
unbound name, so the call raises `NameError: season` instead of writing the
claimed 3-D variable, coordinates, and metadata attributes. -/
theorem C8_save_matrix_netcdf_name_error (data : List (ℤ × List (List Bool)))
    (coordinates : List (String × List (List ℚ))) (time : List ℤ)
    (info : Config) (sim_no : ℕ) (filename : String) :
    save_matrix_to_netcdf data coordinates time info sim_no filename =
      Except.error (PyErr.nameError "season") := rfl

/-- C9: for any orientation string other than `"WE"` and `"NS"`, `band` does
not raise: both extension `elif` chains fall through, so it returns the
unextended strict-interval mask together with the flat 1-D masked coordinate
arrays (no reshape into `(num_included_lines, line_length)`). -/
theorem C9_band_unknown_orientation_flat (dem : Dem) (levels : List ℚ)
    (o : String) (h1 : o ≠ "WE") (h2 : o ≠ "NS") :
    band dem levels o =
      (bandInitialMask dem.z (listMin levels) (listMax levels),
       Coords.flat
         (maskedVals dem.x (bandInitialMask dem.z (listMin levels) (listMax levels)))
         (maskedVals dem.y (bandInitialMask dem.z (listMin levels) (listMax levels)))) := by
  simp [band, h1, h2]

/-- Witness for C9 at the orientation string `"XX"` and a concrete raster. -/
theorem C9_band_unknown_orientation_flat_witness :
    band demW [1, 7] "XX" =
      (bandInitialMask demW.z (listMin [1, 7]) (listMax [1, 7]),
       Coords.flat
         (maskedVals demW.x (bandInitialMask demW.z (listMin [1, 7]) (listMax [1, 7])))
         (maskedVals demW.y (bandInitialMask demW.z (listMin [1, 7]) (listMax [1, 7])))) :=
  C9_band_unknown_orientation_flat demW [1, 7] "XX" (by decide) (by decide)

/-- C3 (code bug): on the tall unrotated grid (rotation angle 0) the vertical
edge vector is the longer one, and the source computes
`np.arctan2(dx2, dy2) - pi/2` with the arguments swapped: it returns `-pi/2`
where the spec's rule — `atan2` of the vertical edge vector (in the standard
`(y, x)` order) minus 90 degrees — yields the true angle `0`.  The two
disagree, so the mesh-alignment operation recovers the rotation angle only in
the horizontal branch, not in both branches as claimed. -/
theorem C3_grid_angle_vertical_branch :
    calculate_grid_angle xTall yTall = -(Real.pi / 2) ∧
    grid_angle_spec xTall yTall = 0 ∧
    calculate_grid_angle xTall yTall ≠ grid_angle_spec xTall yTall := by
  have hlast : Fin.last 1 = (1 : Fin 2) := rfl
  have hx1 : xTall 0 1 = 1 := by simp [xTall]
  have hx0 : xTall 0 0 = 0 := by simp [xTall]
  have hxv : xTall 1 0 = 0 := by simp [xTall]
  have hy1 : yTall 0 1 = 0 := by simp [yTall]
  have hy0 : yTall 0 0 = 0 := by simp [yTall]
  have hyv : yTall 1 0 = 5 := by simp [yTall]
  have hcond : ¬ (Real.sqrt ((1 - 0 : ℝ) ^ 2 + (0 - 0 : ℝ) ^ 2) >
      Real.sqrt ((0 - 0 : ℝ) ^ 2 + (5 - 0 : ℝ) ^ 2)) := by
    rw [show ((1 - 0 : ℝ) ^ 2 + (0 - 0 : ℝ) ^ 2) = 1 by norm_num,
      show ((0 - 0 : ℝ) ^ 2 + (5 - 0 : ℝ) ^ 2) = 25 by norm_num]
    exact not_lt.mpr (Real.sqrt_le_sqrt (by norm_num))
  have hcode : calculate_grid_angle xTall yTall = -(Real.pi / 2) := by
    simp only [calculate_grid_angle, hlast, hx1, hx0, hxv, hy1, hy0, hyv]
    rw [if_neg hcond, show (0 - 0 : ℝ) = 0 by norm_num,
      show (5 - 0 : ℝ) = 5 by norm_num, arctan2_zero_of_pos 5 (by norm_num)]
    ring
  have hspec : grid_angle_spec xTall yTall = 0 := by
    simp only [grid_angle_spec, hlast, hx1, hx0, hxv, hy1, hy0, hyv]
    rw [if_neg hcond, show (0 - 0 : ℝ) = 0 by norm_num,
      show (5 - 0 : ℝ) = 5 by norm_num, arctan2_of_pos_zero 5 (by norm_num)]
    ring
  refine ⟨hcode, hspec, ?_⟩
  rw [hcode, hspec]
  intro h
  have h2 : Real.pi / 2 = 0 := neg_eq_zero.mp h
  exact Real.pi_ne_zero (by linarith)

/-- C4 (code bug): on the fully degenerate grid (all corner samples
coincident) the angle computation does not fail: both edge vectors are zero,
the `else` branch is taken, and the function silently returns
`atan2(0, 0) - pi/2 = -pi/2` instead of raising a clear error. -/
theorem C4_degenerate_grid_silent_angle :
    calculate_grid_angle degenerate_grid degenerate_grid = arctan2 0 0 - Real.pi / 2 ∧
    calculate_grid_angle degenerate_grid degenerate_grid = -(Real.pi / 2) := by
  have hcond : ¬ (Real.sqrt ((0 - 0 : ℝ) ^ 2 + (0 - 0 : ℝ) ^ 2) >
      Real.sqrt ((0 - 0 : ℝ) ^ 2 + (0 - 0 : ℝ) ^ 2)) := lt_irrefl _
  have hcode : calculate_grid_angle degenerate_grid degenerate_grid
      = arctan2 0 0 - Real.pi / 2 := by
    simp only [calculate_grid_angle, degenerate_grid]
    rw [if_neg hcond, show (0 - 0 : ℝ) = 0 by norm_num]
  refine ⟨hcode, ?_⟩
  rw [hcode, arctan2_zero_zero]
  ring

/-- C1: the date-equality gate.  For a run whose `project.no_sims` lists
simulation 1 first, (a) if some other listed simulation's `levels.csv`
exposes a date index different from simulation 1's (a different
`RangeIndex`, i.e. a different row count), then `check_inputs` ends in an
error — validation aborts, and since `main` only calls `binary_matrix`
after `check_inputs` returns, no mask is ever computed; (b) if every listed
simulation exposes the same date index as simulation 1, the date-equality
check itself passes, recording that index. -/
theorem C1_date_equality_gate (cfg : Config) (fs : FS) (rest : List ℕ) (n1 : ℕ)
    (hsims : cfg.project_no_sims = 1 :: rest)
    (h1 : fs.readCsvRows (levelsPath cfg 1) = some n1) :
    ((∃ s ∈ rest, ∃ mm, fs.readCsvRows (levelsPath cfg s) = some mm ∧ mm ≠ n1) →
      ∃ e, (check_inputs cfg fs).1 = Except.error e)
    ∧ ((∀ s ∈ rest, fs.readCsvRows (levelsPath cfg s) = some n1) →
      (datesStage cfg fs).1 = Except.ok (some (rangeDates n1))) := by
  constructor
  · intro hw
    have hds : ∃ e, (datesStage cfg fs).1 = Except.error e := by
      rw [datesStage, hsims]
      exact datesGo_error_of_mismatch cfg fs n1 h1 (1 :: rest) none [] (Or.inl rfl)
        (by rcases hw with ⟨s, hs, mm, hrd, hne⟩
            exact ⟨s, List.mem_cons_of_mem 1 hs, mm, hrd, hne⟩)
    rcases hA : normalizeIndex cfg with eA | idxList
    · exact ⟨eA, by simp [check_inputs, hA]⟩
    rcases hB : checkIndexWhitelist idxList with eB | uB
    · exact ⟨eB, by simp [check_inputs, hA, hB]⟩
    by_cases hC : fs.pathExists cfg.input_dtm
    · rcases hD : simDirsGo cfg fs (List.range' 1 (cfg.no_sims - 1)) [] [] with ⟨dres, tr1⟩
      rcases dres with eD | files
      · exact ⟨eD, by simp [check_inputs, hA, hB, hC, hD]⟩
      · rcases hds with ⟨e, he⟩
        rcases hG : datesStage cfg fs with ⟨gres, tr3⟩
        rw [hG] at he
        simp only at he
        rcases gres with eG | dates
        · refine ⟨eG, ?_⟩
          simp [check_inputs, hA, hB, hC, hD, hG]
        · exact absurd he (by simp)
    · exact ⟨PyErr.fileNotFoundError ("Input DTM does not exist: " ++ cfg.input_dtm),
        by simp [check_inputs, hA, hB, hC]⟩
  · intro hall
    rw [datesStage, hsims]
    have h0 : (datesGo cfg fs (1 :: rest) none []).1 =
        (datesGo cfg fs rest (some (rangeDates n1))
          ([] ++ [IOEvent.readCsv (levelsPath cfg 1)])).1 := by
      simp [datesGo, h1]
    rw [h0]
    exact datesGo_ok_of_equal cfg fs n1 rest _ hall

/-- Witness for C1: with two simulations whose level files have two and three
rows, validation ends in an error; with three rows on both sides, the
date-equality check passes and records the index `[0, 1, 2]`. -/
theorem C1_date_equality_gate_witness :
    (∃ e, (check_inputs cfgDates fsDatesBad).1 = Except.error e)
    ∧ (datesStage cfgDates fsDatesGood).1 = Except.ok (some (rangeDates 3)) :=
  ⟨(C1_date_equality_gate cfgDates fsDatesBad [2] 2 rfl rfl).1
      ⟨2, by decide, 3, rfl, by decide⟩,
   (C1_date_equality_gate cfgDates fsDatesGood [2] 3 rfl rfl).2
      (by intro s hs; rw [List.mem_singleton.mp hs]; rfl)⟩

/-- C10: whenever `check_inputs` succeeds on a configuration requesting more
than one index, the resulting `auxiliary_folders` dictionary has exactly one
key — the last requested index — because the dictionary is reinitialized at
each iteration of the per-index loop; the entries recorded for earlier
indices are discarded (their `mkdir` calls still appear in the I/O trace). -/
theorem C10_auxiliary_folders_last_index_only (cfg : Config) (fs : FS)
    (info : Info) (tr : List IOEvent) (li : String)
    (h : check_inputs cfg fs = (Except.ok info, tr))
    (hlen : 1 < info.index.length)
    (hlast : info.index.getLast? = some li) :
    info.auxiliary_folders.map Prod.fst = [li] := by
  unfold check_inputs at h
  rcases hA : normalizeIndex cfg with eA | idxList
  · simp only [hA] at h; simp at h
  simp only [hA] at h
  rcases hB : checkIndexWhitelist idxList with eB | uB
  · simp only [hB] at h; simp at h
  simp only [hB] at h
  by_cases hC : fs.pathExists cfg.input_dtm = true
  swap
  · rw [if_neg hC] at h; simp at h
  rw [if_pos hC] at h
  rcases hD : simDirsGo cfg fs (List.range' 1 (cfg.no_sims - 1)) [] [] with ⟨dres, tr1⟩
  rcases dres with eD | files
  · simp only [hD] at h; simp at h
  simp only [hD] at h
  rcases hG : datesStage cfg fs with ⟨gres, tr3⟩
  rcases gres with eG | dates
  · simp only [hG] at h; simp at h
  simp only [hG] at h
  rcases hH : horizonStage cfg dates with eH | uH
  · simp only [hH] at h; simp at h
  simp only [hH] at h
  rcases hI : returnPeriodsStage cfg with eI | uI
  · simp only [hI] at h; simp at h
  simp only [hI] at h
  rcases hJ : meshStage cfg fs with ⟨jres, tr4⟩
  rcases jres with eJ | uJ
  · simp only [hJ] at h; simp at h
  simp only [hJ] at h
  have hinfo : ({ index := idxList,
                  dtm_filenames := files,
                  seasons := cfg.seasons.getD defaultSeasons,
                  auxiliary_folders := (auxFoldersStage idxList cfg.directories).1,
                  dates := dates } : Info) = info := by
    have := congrArg Prod.fst h
    simpa using this
  rw [← hinfo] at hlast ⊢
  simp only at hlast ⊢
  rw [auxFoldersStage_last idxList cfg.directories li (by simpa using hlast)]
  simp

/-- Witness for C10: the two-index configuration `cfgOk` passes validation and
its `auxiliary_folders` keeps only the last index, `"environmental-risk"`. -/
theorem C10_auxiliary_folders_last_index_only_witness :
    infoOk.auxiliary_folders.map Prod.fst = ["environmental-risk"] :=
  C10_auxiliary_folders_last_index_only cfgOk fsOk infoOk trOk "environmental-risk"
    rfl (by decide) (by decide)

/-- C5: for every DEM grid (with consistent shapes), level interval and
orientation in `"WE"`/`"NS"`: the initial band mask marks a cell `1` iff its
elevation lies strictly between `levels.min()` and `levels.max()`, and in the
extended mask an entry is `1` exactly when its row (for `"WE"`) or its column
(for `"NS"`) contains at least one strictly-in-interval cell — rows/columns
with such a cell are entirely included, all others entirely excluded. -/
theorem C5_band_strict_interval_and_extension
    (dem : Dem) (levels : List ℚ) (o : String) (cols : ℕ)
    (ho : o = "WE" ∨ o = "NS")
    (hyz : dem.y.length = dem.z.length)
    (hz : ∀ r ∈ dem.z, r.length = cols)
    (hy : ∀ r ∈ dem.y, r.length = cols)
    (i j : ℕ) (hi : i < dem.z.length) (hj : j < cols) :
    maskGet (bandInitialMask dem.z (listMin levels) (listMax levels)) i j
      = (decide (zAt dem i j < listMax levels) && decide (zAt dem i j > listMin levels))
    ∧ (maskGet (band dem levels o).1 i j = true ↔
        (if o = "WE" then ∃ j2, j2 < cols ∧ inBand dem levels i j2
         else ∃ i2, i2 < dem.z.length ∧ inBand dem levels i2 j)) := by
  have hlen' : (bandInitialMask dem.z (listMin levels) (listMax levels)).length
      = dem.z.length := by
    rw [bandInitialMask]; exact List.length_map _ _
  have hinitlen : ∀ i2, i2 < dem.z.length →
      ((bandInitialMask dem.z (listMin levels) (listMax levels)).getD i2 []).length = cols := by
    intro i2 hi2
    rw [bandInitialMask, getD_map_lt dem.z _ [] [] i2 hi2, List.length_map]
    exact hz _ (getD_mem_of_lt dem.z [] i2 hi2)
  have hcell : ∀ i2 j2, i2 < dem.z.length → j2 < cols →
      ((bandInitialMask dem.z (listMin levels) (listMax levels)).getD i2 []).getD j2 false
        = (decide (zAt dem i2 j2 < listMax levels) && decide (zAt dem i2 j2 > listMin levels)) := by
    intro i2 j2 hi2 hj2
    have hr : (dem.z.getD i2 []).length = cols := hz _ (getD_mem_of_lt dem.z [] i2 hi2)
    rw [bandInitialMask, getD_map_lt dem.z _ [] [] i2 hi2,
      getD_map_lt _ _ 0 false j2 (by rw [hr]; exact hj2)]
    rfl
  have hIB : ∀ i2 j2, i2 < dem.z.length → j2 < cols →
      ((((bandInitialMask dem.z (listMin levels) (listMax levels)).getD i2 []).getD j2 false) = true
        ↔ inBand dem levels i2 j2) := by
    intro i2 j2 hi2 hj2
    rw [hcell i2 j2 hi2 hj2]
    simp [inBand, gt_iff_lt, and_comm]
  have hrowany : ∀ i2, i2 < dem.z.length →
      (rowAny (bandInitialMask dem.z (listMin levels) (listMax levels)) i2 = true
        ↔ ∃ j2, j2 < cols ∧ inBand dem levels i2 j2) := by
    intro i2 hi2
    rw [rowAny, any_iff_exists_getD _ id false]
    constructor
    · rintro ⟨jj, hjj, hp⟩
      have hjjc : jj < cols := by rw [← hinitlen i2 hi2]; exact hjj
      exact ⟨jj, hjjc, (hIB i2 jj hi2 hjjc).mp (by simpa using hp)⟩
    · rintro ⟨j2, hj2, hib⟩
      refine ⟨j2, ?_, ?_⟩
      · rw [hinitlen i2 hi2]; exact hj2
      · simpa using (hIB i2 j2 hi2 hj2).mpr hib
  have hcolany : ∀ j2, j2 < cols →
      (colAny (bandInitialMask dem.z (listMin levels) (listMax levels)) j2 = true
        ↔ ∃ i2, i2 < dem.z.length ∧ inBand dem levels i2 j2) := by
    intro j2 hj2
    rw [colAny, any_iff_exists_getD _ _ []]
    constructor
    · rintro ⟨ii, hii, hp⟩
      have hii2 : ii < dem.z.length := by rw [← hlen']; exact hii
      exact ⟨ii, hii2, (hIB ii j2 hii2 hj2).mp hp⟩
    · rintro ⟨i2, hi2, hib⟩
      exact ⟨i2, by rw [hlen']; exact hi2, (hIB i2 j2 hi2 hj2).mpr hib⟩
  refine ⟨hcell i j hi hj, ?_⟩
  rcases ho with hWE | hNS
  · subst hWE
    rw [if_pos rfl]
    have hband1 : (band dem levels "WE").1 =
        (weLoop (List.range dem.y.length)
          (bandInitialMask dem.z (listMin levels) (listMax levels), 0)).1 := by
      simp [band]
    have hwl := weLoop_fst_getD (List.range dem.y.length) (List.nodup_range _)
      (bandInitialMask dem.z (listMin levels) (listMax levels)) 0 i
    have hiY : i ∈ List.range dem.y.length := List.mem_range.mpr (by rw [hyz]; exact hi)
    by_cases hA : rowAny (bandInitialMask dem.z (listMin levels) (listMax levels)) i = true
    · have hval : maskGet (band dem levels "WE").1 i j = true := by
        rw [maskGet, hband1, hwl, if_pos ⟨hiY, hA⟩,
          getD_map_lt _ _ false false j (by rw [hinitlen i hi]; exact hj)]
      exact iff_of_true hval ((hrowany i hi).mp hA)
    · have hval : maskGet (band dem levels "WE").1 i j =
          ((bandInitialMask dem.z (listMin levels) (listMax levels)).getD i []).getD j false := by
        rw [maskGet, hband1, hwl, if_neg (fun hc => hA hc.2)]
      refine iff_of_false ?_ ?_
      · rw [hval]
        intro hc
        exact hA ((hrowany i hi).mpr ⟨j, hj, (hIB i j hi hj).mp hc⟩)
      · intro hex
        exact hA ((hrowany i hi).mpr hex)
  · subst hNS
    rw [if_neg (by decide : ¬ ("NS" : String) = "WE")]
    have hhead : (dem.y.headD []).length = cols := by
      cases hYc : dem.y with
      | nil =>
        rw [hYc] at hyz
        rw [← hyz] at hi
        simp at hi
      | cons yr yt =>
        simp only [List.headD_cons]
        exact hy yr (by rw [hYc]; exact List.mem_cons_self yr yt)
    have hband2 : (band dem levels "NS").1 =
        (nsLoop (List.range cols)
          (bandInitialMask dem.z (listMin levels) (listMax levels), 0)).1 := by
      rw [← hhead]
      simp [band]
    have hnl := nsLoop_entry (List.range cols) (List.nodup_range _)
      (bandInitialMask dem.z (listMin levels) (listMax levels)) 0 i j
    have hjC : j ∈ List.range cols := List.mem_range.mpr hj
    by_cases hA : colAny (bandInitialMask dem.z (listMin levels) (listMax levels)) j = true
    · have hval : maskGet (band dem levels "NS").1 i j = true := by
        rw [maskGet, hband2, hnl, if_pos ⟨hjC, hA, by rw [hinitlen i hi]; exact hj⟩]
      exact iff_of_true hval ((hcolany j hj).mp hA)
    · have hval : maskGet (band dem levels "NS").1 i j =
          ((bandInitialMask dem.z (listMin levels) (listMax levels)).getD i []).getD j false := by
        rw [maskGet, hband2, hnl, if_neg (fun hc => hA hc.2.1)]
      refine iff_of_false ?_ ?_
      · rw [hval]
        intro hc
        exact hA ((hcolany j hj).mpr ⟨i, hi, (hIB i j hi hj).mp hc⟩)
      · intro hex
        exact hA ((hcolany j hj).mpr hex)

/-- Witness for C5 at a concrete 2x2 raster, levels `[1, 7]`, orientation
`"WE"`, and cell `(0, 0)`: the cell itself is out of interval (its initial
mask entry is `0`) but its row contains the in-interval cell `(0, 1)`, so the
extended entry is `1`. -/
theorem C5_band_strict_interval_and_extension_witness :
    maskGet (bandInitialMask demW.z (listMin [1, 7]) (listMax [1, 7])) 0 0
      = (decide (zAt demW 0 0 < listMax [1, 7]) && decide (zAt demW 0 0 > listMin [1, 7]))
    ∧ (maskGet (band demW [1, 7] "WE").1 0 0 = true ↔
        (if ("WE" : String) = "WE" then ∃ j2, j2 < 2 ∧ inBand demW [1, 7] 0 j2
         else ∃ i2, i2 < demW.z.length ∧ inBand demW [1, 7] i2 0)) :=
  C5_band_strict_interval_and_extension demW [1, 7] "WE" 2 (Or.inl rfl)
    (by decide) (by decide) (by decide) 0 0 (by decide) (by decide)
